import Mathlib

/-!
Shallow embedding of the call-signaling core of the ConnectMe client
(src/contexts/CallContext.tsx, src/contexts/CallStateContext.tsx, the
IncomingCallProvider, src/services/callService.ts, src/hooks/useWebRTC.ts
and src/hooks/useCallTimer.ts), together with theorems checking the
natural-language specification against it.

Modelling conventions:
- The single-threaded, callback-driven client is embedded as pure
  transition functions on an explicit `ClientState`; each React `useState`
  value and each `useRef` cell becomes a field of the state record.
- External I/O (toasts, Firestore writes, microphone requests, WebRTC
  session creation) is recorded in an append-only `trace : List Effect`
  field, so "performs no store write" is a statement about the trace.
- Results of external calls that the code awaits (microphone grant, the
  generated offer/answer, the new document id) are passed in as explicit
  arguments of the transition functions.
- JavaScript closures that capture a value at creation time (the
  `currentCallDocRef.current` argument passed by value into
  `createPeerConnection`, and the `currentCall` state variable captured by
  the 60-second ring timeout callback) are embedded by storing the
  captured value itself inside the state/effect, exactly as the closure
  would freeze it.
-/

/-- `CallData.status` in src/services/callService.ts. -/
inductive CallStatus
  | ringing
  | accepted
  | declined
  | ended
deriving DecidableEq, Repr

/-- `CallLog.status` in the repository's type declarations. -/
inductive LogStatus
  | completed
  | missed
  | declined
  | failed
deriving DecidableEq, Repr

/-- The local `currentCall.status` values of CallContext.tsx. -/
inductive SessionStatus
  | connecting
  | connected
  | ringing
deriving DecidableEq, Repr

/-- An RTCSessionDescriptionInit payload: a type tag plus sdp body. -/
structure SessionDescription where
  descType : String
  sdp : String
deriving DecidableEq, Repr

/-- Connectivity candidates are opaque payloads the core only forwards. -/
abbrev Candidate := String

/-- Which candidate array of the record a write targets. -/
inductive CandidateField
  | caller
  | receiver
deriving DecidableEq, Repr

/-- The signaling document of one call (`CallData` in callService.ts).
The server-assigned timestamp is omitted: no claim depends on it. -/
structure CallRecord where
  id : String
  callerId : String
  receiverId : String
  callerName : String
  receiverName : String
  callerPhoto : String
  receiverPhoto : String
  status : CallStatus
  offer : Option SessionDescription
  answer : Option SessionDescription
  callerCandidates : List Candidate
  receiverCandidates : List Candidate
  duration : Option Nat
deriving DecidableEq, Repr

/-- Store-level operations that touch the candidate arrays.  `getDoc` is
the read performed by `addIceCandidate`; `updateField` is an `updateDoc`
that replaces one whole candidate array; `arrayAppend` is the store's
atomic array-append primitive (Firestore `arrayUnion`), available but, as
proved below, never emitted by the code. -/
inductive StoreOp
  | getDoc (callId : String)
  | updateField (callId : String) (field : CandidateField) (value : List Candidate)
  | arrayAppend (callId : String) (field : CandidateField) (c : Candidate)
deriving DecidableEq, Repr

/-- Whether a store operation is the atomic append primitive. -/
def StoreOp.isAtomicAppend : StoreOp → Bool
  | StoreOp.arrayAppend _ _ _ => true
  | _ => false

/-- Whether a store operation reads the document back (the read half of a
read-modify-write). -/
def StoreOp.isRead : StoreOp → Bool
  | StoreOp.getDoc _ => true
  | _ => false

/-- Effect of one store operation on the call document it addresses
(single-document view: every operation in a run addresses the same id). -/
def applyStoreOp (r : CallRecord) : StoreOp → CallRecord
  | StoreOp.getDoc _ => r
  | StoreOp.updateField _ CandidateField.caller v => { r with callerCandidates := v }
  | StoreOp.updateField _ CandidateField.receiver v => { r with receiverCandidates := v }
  | StoreOp.arrayAppend _ CandidateField.caller c =>
      { r with callerCandidates := r.callerCandidates ++ [c] }
  | StoreOp.arrayAppend _ CandidateField.receiver c =>
      { r with receiverCandidates := r.receiverCandidates ++ [c] }

/-- The candidate array of `snapshot` that `addIceCandidate` reads for the
given party (useWebRTC.ts: `currentData[candidateField] || []`). -/
def existingCandidates (snapshot : CallRecord) (isCallerCandidate : Bool) : List Candidate :=
  if isCallerCandidate then snapshot.callerCandidates else snapshot.receiverCandidates

/-- The write half of `addIceCandidate` in useWebRTC.ts: an `updateDoc`
replacing the party's whole candidate array by the array it just read,
extended with the new candidate (`[...existingCandidates, candidate]`). -/
def addIceCandidateWriteOp (snapshot : CallRecord) (callId : String)
    (candidate : Candidate) (isCallerCandidate : Bool) : StoreOp :=
  StoreOp.updateField callId
    (if isCallerCandidate then CandidateField.caller else CandidateField.receiver)
    (existingCandidates snapshot isCallerCandidate ++ [candidate])

/-- `addIceCandidate` in useWebRTC.ts as its sequence of store operations:
it first reads the call document (`getDocs` on the id), then issues the
whole-array `updateDoc` computed from that snapshot. -/
def addIceCandidateOps (snapshot : CallRecord) (callId : String)
    (candidate : Candidate) (isCallerCandidate : Bool) : List StoreOp :=
  [StoreOp.getDoc callId, addIceCandidateWriteOp snapshot callId candidate isCallerCandidate]

namespace CallService

/-- `CallService.declineCall`: an unconditional `updateDoc` setting
`status: 'declined'`, whatever the document's current status is. -/
def declineCallDoc (r : CallRecord) : CallRecord :=
  { r with status := CallStatus.declined }

/-- `CallService.acceptCall`: `updateDoc` setting `status: 'accepted'`
and the answer, unconditionally. -/
def acceptCallDoc (r : CallRecord) (ans : SessionDescription) : CallRecord :=
  { r with status := CallStatus.accepted, answer := some ans }

/-- `CallService.endCall`: `updateDoc` setting `status: 'ended'` and,
when supplied, the duration. -/
def endCallDoc (r : CallRecord) (dur : Option Nat) : CallRecord :=
  { r with status := CallStatus.ended,
           duration := match dur with | some d => some d | none => r.duration }

end CallService

/-- The local `currentCall` object of CallContext.tsx. -/
structure CallSession where
  peerId : String
  peerName : String
  peerPhoto : String
  duration : Nat
  isMuted : Bool
  status : SessionStatus
deriving DecidableEq, Repr

/-- WebRTC signaling state of the local peer connection, as far as the
claims need it: after `setLocalDescription(offer)` the caller's session is
in have-local-offer; applying the remote answer moves it to stable. -/
inductive SignalingState
  | haveLocalOffer
  | stable
deriving DecidableEq, Repr

/-- The peer connection created by `createPeerConnection` in
useWebRTC.ts.  `capturedDocId` is the `currentCallDocRef : string | null`
PARAMETER the `onicecandidate` closure captured by value at creation
time — not the live ref cell. -/
structure PeerConnectionModel where
  capturedDocId : Option String
  sigState : SignalingState
deriving DecidableEq, Repr

/-- External side effects performed by the client, in program order. -/
inductive Effect
  | toast (msg : String)
  | requestMic
  | createPC (capturedDocId : Option String)
  | storeCreateCall (r : CallRecord)
  | storeAcceptWrite (callId : String) (ans : SessionDescription)
  | storeDeclineWrite (callId : String)
  | storeEndWrite (callId : String) (duration : Nat)
  | applyRemoteAnswer (ans : SessionDescription)
  | applyRemoteCandidate (c : Candidate)
  | appendLog (callerId receiverId : String) (duration : Nat) (status : LogStatus)
  | subscribeCall (callId : String)
  | unsubscribeCall
  | scheduleRingTimeout (capturedCall : Option CallSession) (callId : String)
deriving DecidableEq, Repr

/-- An immutable history entry (`CallLog` in the type declarations; only
the fields the claims speak about are kept, built exactly as the literal
at the end of `endCall` builds them). -/
structure CallLog where
  callerId : String
  receiverId : String
  callerName : String
  receiverName : String
  callerPhoto : String
  receiverPhoto : String
  duration : Nat
  status : LogStatus
deriving DecidableEq, Repr

/-- The React state values an `endCall` closure (or the ring-timeout
callback) captured at the render that created it: the `currentCall` and
`callDuration` state variables it read.  The context value handed to the
UI is rebuilt every render, so a button click runs the current render's
closure, whose captures equal the live state; the callbacks created
inside `initiateCall` (the record-subscription callback, the ring
timeout, the connection-state handler) keep the closure of THAT render,
which captured the pre-call values. -/
structure CapturedView where
  currentCall : Option CallSession
  callDuration : Nat
deriving DecidableEq, Repr

/-- The whole local client state of the CallProvider: every `useState`
value and `useRef` cell flattened into one record, plus the effect
trace.  `callTimeoutScheduled` holds, for a pending 60-second ring
timeout, the pair the JS closure captured: the state view of the render
that ran `initiateCall`, and the call id. -/
structure ClientState where
  userId : String
  userName : String
  userPhoto : String
  loggedIn : Bool
  isInCall : Bool
  currentCall : Option CallSession
  incomingCall : Option CallRecord
  callHistory : List CallLog
  currentCallDoc : Option String
  isCaller : Bool
  callListener : Bool
  callTimeoutScheduled : Option (CapturedView × String)
  peerConnection : Option PeerConnectionModel
  localStream : Bool
  callDuration : Nat
  timerIntervals : Nat
  trace : List Effect
deriving DecidableEq, Repr

/-- The CallLog literal built at the end of `endCall`
(CallContext.tsx): identity fields flipped by `isCallerRef.current`,
duration from the captured `callDuration`, and the status field written
as the literal `'completed'`. -/
def mkCallLog (s : ClientState) (c : CallSession) (dur : Nat) : CallLog :=
  { callerId := if s.isCaller then s.userId else c.peerId
  , receiverId := if s.isCaller then c.peerId else s.userId
  , callerName := if s.isCaller then s.userName else c.peerName
  , receiverName := if s.isCaller then c.peerName else s.userName
  , callerPhoto := if s.isCaller then s.userPhoto else c.peerPhoto
  , receiverPhoto := if s.isCaller then c.peerPhoto else s.userPhoto
  , duration := dur
  , status := LogStatus.completed }

/-- `endCall` in CallContext.tsx: clears the ring timeout, stops the
timer, unsubscribes the record listener, tears the transport down
(`cleanup`), best-effort writes `status: 'ended'` when a call document
is referenced (store errors are caught and swallowed), appends a CallLog
when the CAPTURED `currentCall` is non-null and a user is logged in, and
resets all call state.  The refs (`currentCallDocRef`, `isCallerRef`,
`callTimeoutRef`, `callListenerRef`) and the state setters are stable
across renders and act on the live state `s`; the `currentCall` and
`callDuration` values the body reads come from the closure's captured
view `cap`.  Total function: the embedded operation never throws. -/
def endCall (cap : CapturedView) (s : ClientState) : ClientState :=
  let endWrites : List Effect :=
    match s.currentCallDoc with
    | some callId => [Effect.storeEndWrite callId cap.callDuration]
    | none => []
  let newLogs : List CallLog :=
    match cap.currentCall with
    | some c => if s.loggedIn then [mkCallLog s c cap.callDuration] else []
    | none => []
  { s with
    callTimeoutScheduled := none
  , timerIntervals := 0
  , callListener := false
  , peerConnection := none
  , localStream := false
  , callHistory := s.callHistory ++ newLogs
  , isInCall := false
  , currentCall := none
  , callDuration := 0
  , currentCallDoc := none
  , isCaller := false
  , trace := s.trace
      ++ (if s.callListener then [Effect.unsubscribeCall] else [])
      ++ endWrites
      ++ newLogs.map (fun l => Effect.appendLog l.callerId l.receiverId l.duration l.status)
      ++ [Effect.toast "Call ended"] }

/-- `endCall` as invoked through the UI (the context value of the
current render): its closure's captured view IS the live state. -/
def endCallLive (s : ClientState) : ClientState :=
  endCall { currentCall := s.currentCall, callDuration := s.callDuration } s

/-- `initiateCall` in CallContext.tsx.  Awaited external results are
arguments: `micOk` (whether `requestMicrophoneAccess` returned a stream),
`offer` (the created offer), `newCallId` (the id `CallService.createCall`
returned) and `createOk` (whether the create write succeeded; on failure
the surrounding catch block runs `endCall`).  Source order is kept:
the guard, the connecting session, the microphone request, the peer
connection — created with the VALUE of `currentCallDocRef.current` at
that moment — the offer as local description, the record creation, then
ref/state updates, the record subscription and the 60-second timeout,
whose callback captures the render's `currentCall` state variable. -/
def initiateCall (s : ClientState) (peerId peerName peerPhoto : String)
    (micOk : Bool) (offer : SessionDescription) (newCallId : String)
    (createOk : Bool) : ClientState :=
  if ¬ s.loggedIn then
    { s with trace := s.trace ++ [Effect.toast "Please log in to make calls"] }
  else if s.isInCall ∨ s.currentCall.isSome then
    { s with trace := s.trace ++ [Effect.toast "Already in a call"] }
  else
    let s1 := { s with
      isCaller := true
    , currentCall := some
        { peerId := peerId, peerName := peerName, peerPhoto := peerPhoto
        , duration := 0, isMuted := false, status := SessionStatus.connecting }
    , trace := s.trace ++ [Effect.requestMic] }
    if ¬ micOk then
      { s1 with currentCall := none }
    else
      let capturedDocId := s1.currentCallDoc
      let s2 := { s1 with
        localStream := true
      , peerConnection := some
          { capturedDocId := capturedDocId, sigState := SignalingState.haveLocalOffer }
      , trace := s1.trace ++ [Effect.createPC capturedDocId] }
      if ¬ createOk then
        endCall { currentCall := s.currentCall, callDuration := s.callDuration } s2
      else
        let rec0 : CallRecord :=
          { id := newCallId, callerId := s.userId, receiverId := peerId
          , callerName := s.userName, receiverName := peerName
          , callerPhoto := s.userPhoto, receiverPhoto := peerPhoto
          , status := CallStatus.ringing, offer := some offer, answer := none
          , callerCandidates := [], receiverCandidates := [], duration := none }
        { s2 with
          currentCallDoc := some newCallId
        , currentCall := s2.currentCall.map (fun c => { c with status := SessionStatus.ringing })
        , callListener := true
        , callTimeoutScheduled :=
            some ({ currentCall := s.currentCall, callDuration := s.callDuration }, newCallId)
        , trace := s2.trace ++
            [ Effect.storeCreateCall rec0
            , Effect.toast ("Calling " ++ peerName ++ "...")
            , Effect.subscribeCall newCallId
            , Effect.scheduleRingTimeout s.currentCall newCallId ] }

/-- The `onicecandidate` handler installed by `createPeerConnection`
(useWebRTC.ts): fires `addIceCandidate` only when both a candidate and
the CAPTURED `currentCallDocRef` argument are truthy; otherwise the
candidate is silently dropped. -/
def onIceCandidate (pc : PeerConnectionModel) (isCallerRef : Bool)
    (snapshot : CallRecord) (candidate : Option Candidate) : List StoreOp :=
  match candidate, pc.capturedDocId with
  | some c, some callId => addIceCandidateOps snapshot callId c isCallerRef
  | _, _ => []

/-- The actual WebRTC behaviour of `setRemoteDescription` with an answer:
it succeeds in have-local-offer state and rejects (InvalidStateError)
when the session is already stable.  Modelled from the spec: the
transport primitive itself is external to the repository; section 4.2 of
the specification states that applying a remote description in the wrong
state fails with NegotiationError. -/
def webrtcApplyOk : SignalingState → Bool
  | SignalingState.haveLocalOffer => true
  | SignalingState.stable => false

/-- A remote-answer-application behaviour table: succeed or fail in each
signaling state, given by two booleans.  `applyOkOf true false` is
`webrtcApplyOk`; quantifying over both booleans makes theorems robust to
how the external primitive is modelled. -/
def applyOkOf (onHaveLocalOffer onStable : Bool) : SignalingState → Bool
  | SignalingState.haveLocalOffer => onHaveLocalOffer
  | SignalingState.stable => onStable

/-- The snapshot callback `initiateCall` registers through
`CallService.subscribeToCall` (CallContext.tsx): on `declined`, toast and
`endCall`; on `accepted` with an answer present, apply the remote answer
— on success start the timer (`startTimer` zeroes `callDuration` and
registers a NEW one-second interval without clearing any previous one)
and mark the session connected, on failure (the catch branch) toast and
`endCall`; on `ended`, `endCall`.  `applyOk` is the behaviour of the
external `setRemoteDescription`; a missing peer connection (already
closed by `cleanup`) also makes the apply fail.  The `endCall` the
callback invokes is the closure of the render that ran `initiateCall`,
whose captured view `cap` is passed alongside. -/
def handleSnapshot (applyOk : SignalingState → Bool) (cap : CapturedView)
    (s : ClientState) (callData : Option CallRecord) : ClientState :=
  match callData with
  | none => s
  | some cd =>
    if cd.status = CallStatus.declined then
      endCall cap { s with trace := s.trace ++ [Effect.toast "Call declined"] }
    else if h : cd.status = CallStatus.accepted ∧ cd.answer.isSome then
      let ans := cd.answer.get h.2
      match s.peerConnection with
      | some pc =>
        if applyOk pc.sigState then
          { s with
            peerConnection := some { pc with sigState := SignalingState.stable }
          , callDuration := 0
          , timerIntervals := s.timerIntervals + 1
          , currentCall := s.currentCall.map (fun c => { c with status := SessionStatus.connected })
          , trace := s.trace ++ [Effect.applyRemoteAnswer ans] }
        else
          endCall cap { s with trace := s.trace ++
            [Effect.applyRemoteAnswer ans, Effect.toast "Failed to establish connection"] }
      | none =>
        endCall cap { s with trace := s.trace ++
          [Effect.applyRemoteAnswer ans, Effect.toast "Failed to establish connection"] }
    else if cd.status = CallStatus.ended then
      endCall cap s
    else s

/-- Firing of the 60-second timeout scheduled by `initiateCall`.  The
callback tests `currentCallDocRef.current === callId` against the live
ref and `currentCall?.status === 'ringing'` against the `currentCall`
STATE VARIABLE captured by the closure, then runs `endCall` if both
hold. -/
def ringTimeoutFire (s : ClientState) : ClientState :=
  match s.callTimeoutScheduled with
  | none => s
  | some (cap, callId) =>
    if s.currentCallDoc = some callId ∧
       cap.currentCall.map (fun c => c.status) = some SessionStatus.ringing then
      endCall cap { s with trace := s.trace ++ [Effect.toast "Call timeout - no answer"] }
    else s

/-- One second of wall-clock time: every live `setInterval` registered by
`startTimer` increments `callDuration` once. -/
def tick (s : ClientState) : ClientState :=
  { s with callDuration := s.callDuration + s.timerIntervals }

/-- `declineCall` in CallContext.tsx: nothing happens without a surfaced
incoming call; otherwise the unconditional decline write is issued and
the surfaced call is cleared. -/
def declineCall (s : ClientState) : ClientState :=
  match s.incomingCall with
  | none => s
  | some inc =>
    { s with incomingCall := none,
             trace := s.trace ++ [Effect.storeDeclineWrite inc.id, Effect.toast "Call declined"] }

/-- `acceptCall` in CallContext.tsx.  The ONLY guard in the source is
`if (!incomingCall || !currentUser) return;` — the local session state is
not consulted.  It then replaces `currentCall` with a fresh connecting
session, requests the microphone (falling back to `declineCall` when that
fails), creates the peer connection with the incoming call's id, applies
the remote offer and sets the local answer (leaving the session stable),
writes `status: 'accepted'` with the answer, stores the doc id, clears
the surfaced call and starts the timer. -/
def acceptCall (s : ClientState) (micOk : Bool) (ans : SessionDescription) : ClientState :=
  match s.incomingCall with
  | none => s
  | some inc =>
    if ¬ s.loggedIn then s
    else
      let s1 := { s with
        isCaller := false
      , currentCall := some
          { peerId := inc.callerId, peerName := inc.callerName, peerPhoto := inc.callerPhoto
          , duration := 0, isMuted := false, status := SessionStatus.connecting }
      , trace := s.trace ++ [Effect.requestMic] }
      if ¬ micOk then
        declineCall s1
      else
        let s2 := { s1 with
          localStream := true
        , peerConnection := some
            { capturedDocId := some inc.id, sigState := SignalingState.stable }
        , trace := s1.trace ++ [Effect.createPC (some inc.id)] }
        { s2 with
          currentCallDoc := some inc.id
        , incomingCall := none
        , callDuration := 0
        , timerIntervals := s2.timerIntervals + 1
        , trace := s2.trace ++ [Effect.storeAcceptWrite inc.id ans, Effect.toast "Call accepted"] }

/-- State of the IncomingCallProvider: the surfaced call plus the ids for
which a 30-second auto-decline timeout is pending (the source schedules
one per surfacing and never clears them). `isInCall`/`currentCall`
mirror the shared call state the provider reads. -/
structure WatcherState where
  isInCall : Bool
  currentCall : Option CallSession
  incomingCall : Option CallRecord
  autoDeclineTimers : List String
deriving DecidableEq, Repr

/-- The `subscribeToIncomingCalls` callback of the IncomingCallProvider:
takes the current set of ringing records addressed to the local user,
newest first; when the newest exists and the client is idle it surfaces
it and schedules a 30-second auto-decline for its id.  In every other
case — including the set becoming EMPTY because the record left the
ringing state — the callback does nothing: the surfaced call is not
cleared and no timer is cancelled. -/
def onIncomingCalls (w : WatcherState) (calls : List CallRecord) : WatcherState :=
  match calls.head? with
  | some latest =>
    if ¬ w.isInCall ∧ w.currentCall = none then
      { w with incomingCall := some latest,
               autoDeclineTimers := w.autoDeclineTimers ++ [latest.id] }
    else w
  | none => w

/-- Firing of the 30-second auto-decline scheduled for `latestId`: if the
surfaced call still has that id, `CallService.declineCall` is invoked on
the store document (the unconditional decline write) and the surfaced
call is cleared; otherwise nothing happens.  `r` is the store's current
copy of that document. -/
def autoDeclineFire (w : WatcherState) (r : CallRecord) (latestId : String) :
    WatcherState × CallRecord :=
  match w.incomingCall with
  | some current =>
    if current.id = latestId then
      ({ w with incomingCall := none }, CallService.declineCallDoc r)
    else (w, r)
  | none => (w, r)

/-! Concrete fixtures used by the closed theorems and witnesses. -/

/-- An offer payload. -/
def offer1 : SessionDescription := { descType := "offer", sdp := "sdp-offer-1" }

/-- An answer payload. -/
def answer1 : SessionDescription := { descType := "answer", sdp := "sdp-answer-1" }

/-- Idle, logged-in client. -/
def s0 : ClientState :=
  { userId := "u-alice", userName := "Alice", userPhoto := "alice.png"
  , loggedIn := true, isInCall := false, currentCall := none, incomingCall := none
  , callHistory := [], currentCallDoc := none, isCaller := false, callListener := false
  , callTimeoutScheduled := none, peerConnection := none, localStream := false
  , callDuration := 0, timerIntervals := 0, trace := [] }

/-- A connected session with Bob. -/
def activeSession : CallSession :=
  { peerId := "u-bob", peerName := "Bob", peerPhoto := "bob.png"
  , duration := 0, isMuted := false, status := SessionStatus.connected }

/-- Client in the middle of a connected call with Bob. -/
def sBusy : ClientState :=
  { s0 with
    isInCall := true, currentCall := some activeSession
  , currentCallDoc := some "call-1", callListener := true
  , peerConnection := some
      { capturedDocId := some "call-1", sigState := SignalingState.stable }
  , localStream := true, timerIntervals := 1, callDuration := 7 }

/-- A ringing incoming record from Carol addressed to Alice. -/
def recIncoming : CallRecord :=
  { id := "call-2", callerId := "u-carol", receiverId := "u-alice"
  , callerName := "Carol", receiverName := "Alice"
  , callerPhoto := "carol.png", receiverPhoto := "alice.png"
  , status := CallStatus.ringing, offer := some offer1, answer := none
  , callerCandidates := [], receiverCandidates := [], duration := none }

/-- Client in a call with Bob while Carol's incoming record is still
surfaced (the watcher never un-surfaces a call when the client leaves
Idle). -/
def sBusyIncoming : ClientState :=
  { sBusy with incomingCall := some recIncoming }

/-- The record of Alice's outgoing call to Bob after Bob accepted:
status accepted with the answer present. -/
def recAccepted : CallRecord :=
  { id := "call-1", callerId := "u-alice", receiverId := "u-bob"
  , callerName := "Alice", receiverName := "Bob"
  , callerPhoto := "alice.png", receiverPhoto := "bob.png"
  , status := CallStatus.accepted, offer := some offer1, answer := some answer1
  , callerCandidates := [], receiverCandidates := [], duration := none }

/-- The same record after Bob declined instead. -/
def recDeclined : CallRecord :=
  { recAccepted with status := CallStatus.declined, answer := none }

/-- The view captured by the closures of a render whose client was idle
(the render that runs `initiateCall`): no session, zero duration. -/
def capIdle : CapturedView := { currentCall := none, callDuration := 0 }

/-- Idle watcher with no surfaced call. -/
def w0 : WatcherState :=
  { isInCall := false, currentCall := none, incomingCall := none, autoDeclineTimers := [] }

/-- The Idle resting state of the client: no session, no call document,
no listener, no timers, no transport. -/
def IdleClient (s : ClientState) : Prop :=
  s.currentCall = none ∧ s.currentCallDoc = none ∧ s.callListener = false ∧
  s.callTimeoutScheduled = none ∧ s.peerConnection = none ∧ s.localStream = false ∧
  s.callDuration = 0 ∧ s.timerIntervals = 0 ∧ s.isInCall = false ∧ s.isCaller = false

/-- Whether an effect applies a remote connectivity candidate to the
local transport session. -/
def Effect.isApplyCandidate : Effect → Bool
  | Effect.applyRemoteCandidate _ => true
  | _ => false

/-- Running `n` one-second ticks. -/
def ticks (n : Nat) (s : ClientState) : ClientState :=
  (List.range n).foldl (fun acc _ => tick acc) s

/-! Theorems. -/

/-- C6: if `initiateCall` is invoked while the local client is already in
a non-Idle call state (a current session exists or `isInCall` is set),
the attempt is rejected with the AlreadyInCall toast and the resulting
state is the old state with only that toast appended to the trace: the
existing session is untouched, no store write happens, and no transport
session is created. -/
theorem initiateCall_rejected_when_already_in_call
    (s : ClientState) (peerId peerName peerPhoto : String)
    (micOk : Bool) (offer : SessionDescription) (newCallId : String) (createOk : Bool)
    (hLogged : s.loggedIn = true)
    (hBusy : s.isInCall = true ∨ s.currentCall.isSome = true) :
    initiateCall s peerId peerName peerPhoto micOk offer newCallId createOk
      = { s with trace := s.trace ++ [Effect.toast "Already in a call"] } := by
  unfold initiateCall
  rcases hBusy with h | h <;> simp [hLogged, h]

/-- Witness for C6 at a concrete in-call state. -/
theorem initiateCall_rejected_when_already_in_call_witness :
    initiateCall sBusy "u-carol" "Carol" "carol.png" true offer1 "call-9" true
      = { sBusy with trace := sBusy.trace ++ [Effect.toast "Already in a call"] } :=
  initiateCall_rejected_when_already_in_call sBusy "u-carol" "Carol" "carol.png"
    true offer1 "call-9" true rfl (Or.inl rfl)

/-- C9: if microphone acquisition fails during `initiateCall` from an
idle, logged-in state, the resulting state differs from the old one only
by `isCaller := true` and a microphone-request effect: in particular no
`storeCreateCall` write is emitted, the peer connection and local stream
fields are unchanged (no transport created or leaked), and the session
is back to Idle (`currentCall = none`, `isInCall = false`). -/
theorem initiateCall_micFail_clean_abort
    (s : ClientState) (peerId peerName peerPhoto : String)
    (offer : SessionDescription) (newCallId : String) (createOk : Bool)
    (hLogged : s.loggedIn = true)
    (hNotIn : s.isInCall = false)
    (hIdle : s.currentCall = none) :
    initiateCall s peerId peerName peerPhoto false offer newCallId createOk
      = { s with isCaller := true, trace := s.trace ++ [Effect.requestMic] } := by
  unfold initiateCall
  simp [hLogged, hNotIn, hIdle]

/-- Witness for C9 at the concrete idle state. -/
theorem initiateCall_micFail_clean_abort_witness :
    initiateCall s0 "u-bob" "Bob" "bob.png" false offer1 "call-9" true
      = { s0 with isCaller := true, trace := s0.trace ++ [Effect.requestMic] } :=
  initiateCall_micFail_clean_abort s0 "u-bob" "Bob" "bob.png" offer1 "call-9" true
    rfl rfl rfl

/-- C8: a second `endCall` in succession only repeats the final toast —
it leaves every state field as the first call left it and emits no other
effect: no duplicate CallLog, no second record-status write, and, being
a total function, nothing thrown; likewise `endCall` on an already-Idle
state only toasts. -/
theorem endCall_idempotent_and_idle_noop :
    (∀ s : ClientState,
      endCallLive (endCallLive s)
        = { endCallLive s with trace := (endCallLive s).trace ++ [Effect.toast "Call ended"] }) ∧
    (∀ s : ClientState, IdleClient s →
      endCallLive s = { s with trace := s.trace ++ [Effect.toast "Call ended"] }) := by
  constructor
  · intro s
    simp [endCallLive, endCall]
  · intro s h
    obtain ⟨h1, h2, h3, h4, h5, h6, h7, h8, h9, h10⟩ := h
    cases s
    simp_all [endCallLive, endCall]

/-- Witness for C8: the second `endCall` after tearing down the concrete
busy call only toasts again, and `endCall` on the concrete idle state
only toasts. -/
theorem endCall_idempotent_and_idle_noop_witness :
    endCallLive (endCallLive sBusy)
      = { endCallLive sBusy with
          trace := (endCallLive sBusy).trace ++ [Effect.toast "Call ended"] } ∧
    endCallLive s0 = { s0 with trace := s0.trace ++ [Effect.toast "Call ended"] } :=
  ⟨endCall_idempotent_and_idle_noop.1 sBusy,
   endCall_idempotent_and_idle_noop.2 s0
     ⟨rfl, rfl, rfl, rfl, rfl, rfl, rfl, rfl, rfl, rfl⟩⟩

/-- Helper: `endCall` emits no remote-candidate application. -/
theorem endCall_no_candidate_apply (cap : CapturedView) (s : ClientState) :
    (endCall cap s).trace.filter Effect.isApplyCandidate
      = s.trace.filter Effect.isApplyCandidate := by
  simp only [endCall]
  cases s.currentCallDoc <;> cases cap.currentCall <;> cases s.loggedIn <;>
    cases s.callListener <;>
      simp [Effect.isApplyCandidate, List.filter_append]

/-- Helper: the caller's record-subscription callback emits no
remote-candidate application, whatever snapshot arrives, whatever view
its `endCall` closure captured, and however the external
description-apply behaves. -/
theorem handleSnapshot_no_candidate_apply
    (applyOk : SignalingState → Bool) (cap : CapturedView)
    (s : ClientState) (cd : Option CallRecord) :
    (handleSnapshot applyOk cap s cd).trace.filter Effect.isApplyCandidate
      = s.trace.filter Effect.isApplyCandidate := by
  cases cd with
  | none => rfl
  | some r =>
    simp only [handleSnapshot]
    split
    · rw [endCall_no_candidate_apply]
      simp [Effect.isApplyCandidate, List.filter_append]
    · split
      · cases hpc : s.peerConnection with
        | none =>
          simp only [hpc]
          rw [endCall_no_candidate_apply]
          simp [Effect.isApplyCandidate, List.filter_append]
        | some pc =>
          simp only [hpc]
          split
          · simp [Effect.isApplyCandidate, List.filter_append]
          · rw [endCall_no_candidate_apply]
            simp [Effect.isApplyCandidate, List.filter_append]
      · split
        · rw [endCall_no_candidate_apply]
        · rfl

/-- C1 (refuted; code bug): during `initiateCall` the peer connection is
created with the VALUE of `currentCallDocRef.current`, which is still
null because `CallService.createCall` has not run yet; the onicecandidate
closure therefore holds `capturedDocId = none` forever and pushes no
caller candidate to the record, and the caller's record subscription
never applies any remote candidate to the transport session.  The
conjuncts: (1) the connection created by a successful `initiateCall`
captured no document id; (2) a handler with no captured id emits no
store operation for any discovered candidate; (3) no snapshot ever makes
the subscription callback apply a remote candidate. -/
theorem caller_candidates_never_pushed_and_remote_never_applied :
    (initiateCall s0 "u-bob" "Bob" "bob.png" true offer1 "call-1" true).peerConnection
      = some { capturedDocId := none, sigState := SignalingState.haveLocalOffer } ∧
    (∀ (sig : SignalingState) (isCallerRef : Bool) (snapshot : CallRecord)
        (cand : Option Candidate),
      onIceCandidate { capturedDocId := none, sigState := sig } isCallerRef snapshot cand
        = []) ∧
    (∀ (applyOk : SignalingState → Bool) (cap : CapturedView)
        (s : ClientState) (cd : Option CallRecord),
      (handleSnapshot applyOk cap s cd).trace.filter Effect.isApplyCandidate
        = s.trace.filter Effect.isApplyCandidate) := by
  refine ⟨by decide, ?_, handleSnapshot_no_candidate_apply⟩
  intro sig isCallerRef snapshot cand
  cases cand <;> rfl

/-- C2 (refuted; code bug): the 60-second ring-timeout callback captured
the `currentCall` state variable of the render that ran `initiateCall`;
the AlreadyInCall guard had just ensured that value is null, so the
condition `currentCall?.status === 'ringing'` in the callback can never
hold.  After a successful `initiateCall` and 60 seconds with no remote
response, firing the timeout is the identity: the session is still
ringing, no endCall runs, and no ended write is emitted. -/
theorem ring_timeout_never_fires :
    (initiateCall s0 "u-bob" "Bob" "bob.png" true offer1 "call-1" true).callTimeoutScheduled
      = some (capIdle, "call-1") ∧
    ((ticks 60 (initiateCall s0 "u-bob" "Bob" "bob.png" true offer1 "call-1" true)).currentCall.map
        fun c => c.status) = some SessionStatus.ringing ∧
    ringTimeoutFire (ticks 60 (initiateCall s0 "u-bob" "Bob" "bob.png" true offer1 "call-1" true))
      = ticks 60 (initiateCall s0 "u-bob" "Bob" "bob.png" true offer1 "call-1" true) := by
  decide

/-- C3 (refuted; code bug): the accepted-snapshot branch has no
already-connected guard.  Under the actual transport behaviour
(`webrtcApplyOk`: re-applying an answer in stable state fails) the first
accepted snapshot connects the call and starts the timer; after five
seconds the duration is 5; the IDENTICAL second snapshot makes the
callback re-apply the answer, the failure branch runs `endCall`, and the
call is torn down with its duration zeroed.  The last conjunct shows the
duration is zeroed by the duplicate snapshot under EVERY behaviour table
of the external apply (if the re-apply succeeded instead, `startTimer`
itself would zero the duration and register a second interval). -/
theorem duplicate_accepted_snapshot_not_idempotent :
    ((handleSnapshot webrtcApplyOk capIdle
        (initiateCall s0 "u-bob" "Bob" "bob.png" true offer1 "call-1" true)
        (some recAccepted)).currentCall.map fun c => c.status)
      = some SessionStatus.connected ∧
    (handleSnapshot webrtcApplyOk capIdle
        (initiateCall s0 "u-bob" "Bob" "bob.png" true offer1 "call-1" true)
        (some recAccepted)).timerIntervals = 1 ∧
    (ticks 5 (handleSnapshot webrtcApplyOk capIdle
        (initiateCall s0 "u-bob" "Bob" "bob.png" true offer1 "call-1" true)
        (some recAccepted))).callDuration = 5 ∧
    (handleSnapshot webrtcApplyOk capIdle
        (ticks 5 (handleSnapshot webrtcApplyOk capIdle
          (initiateCall s0 "u-bob" "Bob" "bob.png" true offer1 "call-1" true)
          (some recAccepted)))
        (some recAccepted)).currentCall = none ∧
    (handleSnapshot webrtcApplyOk capIdle
        (ticks 5 (handleSnapshot webrtcApplyOk capIdle
          (initiateCall s0 "u-bob" "Bob" "bob.png" true offer1 "call-1" true)
          (some recAccepted)))
        (some recAccepted)).callDuration = 0 ∧
    (∀ b1 b2 : Bool,
      (handleSnapshot (applyOkOf b1 b2) capIdle
        (ticks 5 (handleSnapshot (applyOkOf b1 b2) capIdle
          (initiateCall s0 "u-bob" "Bob" "bob.png" true offer1 "call-1" true)
          (some recAccepted)))
        (some recAccepted)).callDuration = 0) := by
  decide

/-- C4 (refuted; code bug): when the caller's subscription observes the
record declined, the `endCall` it invokes is the stale closure of the
`initiateCall` render, whose captured `currentCall` is null — so NO
CallLog at all is appended on this path (first conjunct: the history is
still empty, and the trace holds no appendLog); and the log literal
`endCall` builds whenever a log IS appended hardcodes the status
`'completed'` (second conjunct), which differs from `'declined'`
(third), so no CallLog ever carries the outcome declined. -/
theorem declined_call_never_logged_declined :
    ((handleSnapshot webrtcApplyOk capIdle
        (initiateCall s0 "u-bob" "Bob" "bob.png" true offer1 "call-1" true)
        (some recDeclined)).callHistory = [] ∧
     (handleSnapshot webrtcApplyOk capIdle
        (initiateCall s0 "u-bob" "Bob" "bob.png" true offer1 "call-1" true)
        (some recDeclined)).currentCall = none) ∧
    (∀ (s : ClientState) (c : CallSession) (dur : Nat),
      (mkCallLog s c dur).status = LogStatus.completed) ∧
    LogStatus.completed ≠ LogStatus.declined := by
  refine ⟨by decide, fun s c dur => rfl, by decide⟩

/-- C5 (refuted; code bug): the watcher surfaces Carol's ringing record
and schedules the 30-second auto-decline; the caller then cancels,
moving the record to `ended`; the ringing query's next (empty) snapshot
does NOT clear the surfaced call, and when the auto-decline fires it
issues the unconditional decline write, setting `status = 'declined'` on
a record whose status was already `'ended'` — a backward transition the
claim rules out. -/
theorem auto_decline_overwrites_ended_record :
    (CallService.endCallDoc recIncoming (some 0)).status = CallStatus.ended ∧
    (onIncomingCalls (onIncomingCalls w0 [recIncoming]) []).incomingCall
      = some recIncoming ∧
    (autoDeclineFire (onIncomingCalls (onIncomingCalls w0 [recIncoming]) [])
        (CallService.endCallDoc recIncoming (some 0)) recIncoming.id).2.status
      = CallStatus.declined := by
  decide

/-- C7 (refuted; code bug): `acceptCall` checks only that an incoming
call is surfaced and a user is logged in; it never consults the local
session.  Invoked at a state that is mid-call with Bob while Carol's
record is surfaced, it proceeds — requesting the microphone, creating a
second transport session, writing `accepted` to the store, replacing the
live session and stacking a second timer interval — instead of being
rejected with AlreadyInCall. -/
theorem acceptCall_proceeds_while_in_call :
    (acceptCall sBusyIncoming true answer1).trace
      = sBusyIncoming.trace ++
        [Effect.requestMic, Effect.createPC (some "call-2"),
         Effect.storeAcceptWrite "call-2" answer1, Effect.toast "Call accepted"] ∧
    (acceptCall sBusyIncoming true answer1).currentCall ≠ sBusyIncoming.currentCall ∧
    (acceptCall sBusyIncoming true answer1).timerIntervals = 2 ∧
    Effect.toast "Already in a call" ∉ (acceptCall sBusyIncoming true answer1).trace := by
  decide

/-- C10 counterexample: at a concrete record and candidate, the store
operations `addIceCandidate` performs are a document read followed by an
`updateDoc` that rewrites the party's whole candidate array — a
read-modify-write; no operation in the sequence is the store's atomic
array-append primitive. -/
theorem addIceCandidate_not_atomic_append :
    addIceCandidateOps recIncoming "call-2" "cand-a" true
      = [StoreOp.getDoc "call-2",
         StoreOp.updateField "call-2" CandidateField.caller ["cand-a"]] ∧
    (addIceCandidateOps recIncoming "call-2" "cand-a" true).any StoreOp.isAtomicAppend
      = false ∧
    (addIceCandidateOps recIncoming "call-2" "cand-a" true).any StoreOp.isRead
      = true := by
  decide

/-- C10 amended: the candidate append is a read-modify-write that
rewrites only that party's own array field.  Because the two parties'
writes target disjoint fields, concurrent appends by the local and
remote parties to their respective arrays (both computed from the same
stale snapshot, applied in either order) lose nothing; but two
interleaved appends by the SAME party, both computed from the same
snapshot, lose a candidate. -/
theorem addIceCandidate_rmw_cross_party_safe_same_party_lossy :
    (∀ (r : CallRecord) (a b : Candidate),
      (a ∈ (applyStoreOp (applyStoreOp r (addIceCandidateWriteOp r r.id a true))
              (addIceCandidateWriteOp r r.id b false)).callerCandidates ∧
       b ∈ (applyStoreOp (applyStoreOp r (addIceCandidateWriteOp r r.id a true))
              (addIceCandidateWriteOp r r.id b false)).receiverCandidates) ∧
      (a ∈ (applyStoreOp (applyStoreOp r (addIceCandidateWriteOp r r.id b false))
              (addIceCandidateWriteOp r r.id a true)).callerCandidates ∧
       b ∈ (applyStoreOp (applyStoreOp r (addIceCandidateWriteOp r r.id b false))
              (addIceCandidateWriteOp r r.id a true)).receiverCandidates)) ∧
    ((applyStoreOp (applyStoreOp recIncoming
        (addIceCandidateWriteOp recIncoming recIncoming.id "cand-a" true))
        (addIceCandidateWriteOp recIncoming recIncoming.id "cand-b" true)).callerCandidates
      = ["cand-b"]) := by
  constructor
  · intro r a b
    simp [addIceCandidateWriteOp, existingCandidates, applyStoreOp]
  · decide
